import Mathlib

/-
Verification of the viam-spotify playback module.

Shallow embedding of the go-librespot HTTP client (librespot_client.py),
the subprocess supervisor (librespot_manager.py) and the derived color
cache (spotify_service.py), with theorems settling the specified
behavioral claims.
-/

namespace ViamSpotify

/-! ## HTTP client model (librespot_client.py) -/

/-- Value appearing in a JSON request or response body. -/
inductive JsonVal where
  | jb (b : Bool)
  | ji (n : Int)
  | js (s : String)
  deriving DecidableEq, Repr

/-- JSON object, as an association list. -/
def JsonDict := List (String × JsonVal)
  deriving DecidableEq

/-- One outgoing HTTP request, as built by LibrespotClient before it hits
the network: method, endpoint, optional JSON body. -/
structure HttpRequest where
  method : String
  endpoint : String
  jsonData : Option JsonDict
  deriving DecidableEq

/-- Body of an HTTP response as seen by the client: empty text, a valid
JSON object, or text that response.json() rejects. -/
inductive RespBody where
  | empty
  | jsonBody (d : JsonDict)
  | malformed
  deriving DecidableEq

/-- Outcome of one underlying network call made by requests.request:
a connection error, a timeout, or a response carrying a status code and
a body.  The requests library follows redirects itself, so the statuses
that reach the client include 2xx successes, non-redirected 3xx such as
304, and 4xx/5xx errors. -/
inductive HttpOutcome where
  | connectionError
  | timeout
  | response (status : Nat) (body : RespBody)
  deriving DecidableEq

/-- Semantics of response.raise_for_status(): it raises HTTPError exactly
for client errors (4xx) and server errors (5xx). -/
def raisesForStatus (status : Nat) : Bool :=
  (400 ≤ status && status < 500) || (500 ≤ status && status < 600)

/-- Embedding of LibrespotClient._request error handling: given the
outcome of the underlying call, produce the dict returned to the caller,
or none when one of the caught exception classes fires
(ConnectionError, Timeout, HTTPError from raise_for_status,
json.JSONDecodeError from response.json()); an empty body yields
the empty dict. -/
def requestResult (outcome : HttpOutcome) : Option JsonDict :=
  match outcome with
  | HttpOutcome.connectionError => none
  | HttpOutcome.timeout => none
  | HttpOutcome.response status body =>
      if raisesForStatus status then none
      else
        match body with
        | RespBody.empty => some []
        | RespBody.jsonBody d => some d
        | RespBody.malformed => none

/-- A network environment: what outcome each request meets. -/
def Net := HttpRequest → HttpOutcome

/-- Issue one request against the network environment and return the
parsed result, as LibrespotClient._request does. -/
def sendRequest (net : Net) (r : HttpRequest) : Option JsonDict :=
  requestResult (net r)

/-- Embedding of LibrespotClient.resume: request issued and boolean
result (result is not None). -/
def resume (net : Net) : List HttpRequest × Bool :=
  let q : HttpRequest := ⟨"POST", "/player/resume", none⟩
  ([q], (sendRequest net q).isSome)

/-- Embedding of LibrespotClient.pause. -/
def pause (net : Net) : List HttpRequest × Bool :=
  let q : HttpRequest := ⟨"POST", "/player/pause", none⟩
  ([q], (sendRequest net q).isSome)

/-- Embedding of LibrespotClient.play_pause. -/
def play_pause (net : Net) : List HttpRequest × Bool :=
  let q : HttpRequest := ⟨"POST", "/player/playpause", none⟩
  ([q], (sendRequest net q).isSome)

/-- Embedding of LibrespotClient.next_track. -/
def next_track (net : Net) : List HttpRequest × Bool :=
  let q : HttpRequest := ⟨"POST", "/player/next", none⟩
  ([q], (sendRequest net q).isSome)

/-- Embedding of LibrespotClient.previous_track. -/
def previous_track (net : Net) : List HttpRequest × Bool :=
  let q : HttpRequest := ⟨"POST", "/player/prev", none⟩
  ([q], (sendRequest net q).isSome)

/-- Embedding of LibrespotClient.seek. -/
def seek (net : Net) (positionMs : Int) : List HttpRequest × Bool :=
  let q : HttpRequest := ⟨"POST", "/player/seek", some [("position", JsonVal.ji positionMs)]⟩
  ([q], (sendRequest net q).isSome)

/-- Python max(0, min(100, volume)), the clamp applied by set_volume. -/
def pyClamp (volume : Int) : Int :=
  max 0 (min 100 volume)

/-- Embedding of LibrespotClient.set_volume: clamp to 0..100, issue one
request carrying the clamped value, report whether it succeeded. -/
def set_volume (net : Net) (volume : Int) : List HttpRequest × Bool :=
  let volume := pyClamp volume
  let q : HttpRequest := ⟨"POST", "/player/volume", some [("volume", JsonVal.ji volume)]⟩
  ([q], (sendRequest net q).isSome)

/-- Embedding of LibrespotClient.set_shuffle. -/
def set_shuffle (net : Net) (enabled : Bool) : List HttpRequest × Bool :=
  let q : HttpRequest :=
    ⟨"POST", "/player/shuffle_context", some [("shuffle_context", JsonVal.jb enabled)]⟩
  ([q], (sendRequest net q).isSome)

/-- Request on the repeat_context endpoint carrying the given flag. -/
def reqRepeatContext (b : Bool) : HttpRequest :=
  ⟨"POST", "/player/repeat_context", some [("repeat_context", JsonVal.jb b)]⟩

/-- Request on the repeat_track endpoint carrying the given flag. -/
def reqRepeatTrack (b : Bool) : HttpRequest :=
  ⟨"POST", "/player/repeat_track", some [("repeat_track", JsonVal.jb b)]⟩

/-- Embedding of LibrespotClient.set_repeat: mode off disables both
flags; mode context disables repeat_track then enables repeat_context;
mode track disables repeat_context then enables repeat_track; any other
mode issues nothing and fails.  Success requires both requests to have
returned non-None. -/
def set_repeat (net : Net) (mode : String) : List HttpRequest × Bool :=
  if mode = "off" then
    let r1 := sendRequest net (reqRepeatContext false)
    let r2 := sendRequest net (reqRepeatTrack false)
    ([reqRepeatContext false, reqRepeatTrack false], r1.isSome && r2.isSome)
  else if mode = "context" then
    let r1 := sendRequest net (reqRepeatTrack false)
    let r2 := sendRequest net (reqRepeatContext true)
    ([reqRepeatTrack false, reqRepeatContext true], r1.isSome && r2.isSome)
  else if mode = "track" then
    let r1 := sendRequest net (reqRepeatContext false)
    let r2 := sendRequest net (reqRepeatTrack true)
    ([reqRepeatContext false, reqRepeatTrack true], r1.isSome && r2.isSome)
  else
    ([], false)

/-- Embedding of LibrespotClient.play_uri. -/
def play_uri (net : Net) (uri : String) (skipToUri : Option String) : List HttpRequest × Bool :=
  let body : JsonDict :=
    match skipToUri with
    | some s => if s ≠ "" then [("uri", JsonVal.js uri), ("skip_to_uri", JsonVal.js s)]
                else [("uri", JsonVal.js uri)]
    | none => [("uri", JsonVal.js uri)]
  let q : HttpRequest := ⟨"POST", "/player/play", some body⟩
  ([q], (sendRequest net q).isSome)

/-- Embedding of LibrespotClient.add_to_queue. -/
def add_to_queue (net : Net) (uri : String) : List HttpRequest × Bool :=
  let q : HttpRequest := ⟨"POST", "/player/add_to_queue", some [("uri", JsonVal.js uri)]⟩
  ([q], (sendRequest net q).isSome)

/-- True when the request sets a repeat flag to false. -/
def disablesRepeatFlag (r : HttpRequest) : Bool :=
  decide (r = reqRepeatContext false) || decide (r = reqRepeatTrack false)

/-- True when the request sets a repeat flag to true. -/
def enablesRepeatFlag (r : HttpRequest) : Bool :=
  decide (r = reqRepeatContext true) || decide (r = reqRepeatTrack true)

/-! ## Release-date normalization (LibrespotClient._parse_release_date) -/

/-- Digits of a Python integer literal after the first digit: a run of
digits in which each underscore stands between two digits, accumulating
the value (semantics of int() on such strings). -/
def pyDigitsAux (acc : Nat) : List Char → Option Nat
  | [] => some acc
  | ['_'] => none
  | '_' :: c :: rest =>
      if c.isDigit then pyDigitsAux (acc * 10 + (c.toNat - 48)) rest else none
  | c :: rest =>
      if c.isDigit then pyDigitsAux (acc * 10 + (c.toNat - 48)) rest else none

/-- Value of a nonempty digit run beginning with a digit. -/
def pyDigits (cs : List Char) : Option Nat :=
  match cs with
  | [] => none
  | c :: rest => if c.isDigit then pyDigitsAux (c.toNat - 48) rest else none

/-- Semantics of Python int(value) on the whitespace-free tokens produced
by str.split(): optional sign followed by digits; none models the
ValueError that aborts parsing. -/
def pyInt (s : String) : Option Int :=
  match s.data with
  | '-' :: rest => (pyDigits rest).map (fun n => -(n : Int))
  | '+' :: rest => (pyDigits rest).map (fun n => (n : Int))
  | cs => (pyDigits cs).map (fun n => (n : Int))

/-- Split a character list on runs of whitespace, dropping empty pieces,
as Python str.split() with no arguments does. -/
def wsSplitAux (cur : List Char) : List Char → List (List Char)
  | [] => if cur = [] then [] else [cur.reverse]
  | c :: rest =>
      if c.isWhitespace then
        if cur = [] then wsSplitAux [] rest
        else cur.reverse :: wsSplitAux [] rest
      else wsSplitAux (c :: cur) rest

/-- Python str.split() with no arguments. -/
def pySplit (s : String) : List String :=
  (wsSplitAux [] s.data).map (fun cs => String.mk cs)

/-- Split a token at its first colon: part.split(":", 1).  Returns none
when the token holds no colon (the code skips such tokens). -/
def splitFirstColon (cs : List Char) : Option (List Char × List Char) :=
  match cs with
  | [] => none
  | c :: rest =>
      if c = ':' then some ([], rest)
      else
        match splitFirstColon rest with
        | some p => some (c :: p.1, p.2)
        | none => none

/-- Store a key in the parts dict, overwriting any previous value, as
Python dict assignment does. -/
def dictInsertInt (d : List (String × Int)) (k : String) (v : Int) : List (String × Int) :=
  if (d.find? (fun p => p.1 == k)).isSome then
    d.map (fun p => if p.1 == k then (k, v) else p)
  else d ++ [(k, v)]

/-- Read a key from the parts dict with a default, as dict.get does. -/
def dictGetInt (d : List (String × Int)) (k : String) (dflt : Int) : Int :=
  match d.find? (fun p => p.1 == k) with
  | some p => p.2
  | none => dflt

/-- Process the whitespace-split tokens left to right: a token with a
colon contributes key to int(value); an unparsable value aborts the
whole parse (the ValueError caught by _parse_release_date). -/
def parseTokens (acc : List (String × Int)) : List String → Option (List (String × Int))
  | [] => some acc
  | p :: rest =>
      match splitFirstColon p.data with
      | none => parseTokens acc rest
      | some kv =>
          match pyInt (String.mk kv.2) with
          | none => none
          | some n => parseTokens (dictInsertInt acc (String.mk kv.1) n) rest

/-- Decimal digit characters of a natural number, via Nat.toDigits. -/
def natDecimalString (n : Nat) : String :=
  String.mk (Nat.toDigits 10 n)

/-- Python format spec 0Nd on an integer: pad with leading zeros to the
total width, the sign occupying one column when negative. -/
def pyFormatD (width : Nat) (n : Int) : String :=
  if n < 0 then
    let s := natDecimalString n.natAbs
    "-" ++ String.mk (List.replicate (width - 1 - s.length) '0') ++ s
  else
    let s := natDecimalString n.toNat
    String.mk (List.replicate (width - s.length) '0') ++ s

/-- Embedding of LibrespotClient._parse_release_date: empty input yields
the empty string; otherwise parse the key:value tokens; when parsing
succeeds and yields a truthy (nonzero) year, format
year-month-day zero padded to 4/2/2, month and day defaulting to 1;
in every other case return the input unchanged. -/
def parse_release_date (dateStr : String) : String :=
  if dateStr = "" then ""
  else
    match parseTokens [] (pySplit dateStr) with
    | none => dateStr
    | some parts =>
        let year := dictGetInt parts "year" 0
        let month := dictGetInt parts "month" 1
        let day := dictGetInt parts "day" 1
        if year ≠ 0 then
          pyFormatD 4 year ++ "-" ++ pyFormatD 2 month ++ "-" ++ pyFormatD 2 day
        else dateStr

/-! ## Subprocess supervisor model (librespot_manager.py) -/

/-- Handle to the spawned go-librespot process: pid and what poll()
reports (none while alive, an exit code once exited). -/
structure ProcHandle where
  pid : Nat
  exitCode : Option Int
  deriving DecidableEq

/-- Mutable supervisor state: the process handle, the should-run flag,
the restart counter and whether the monitor thread has been launched. -/
structure ManagerState where
  process : Option ProcHandle
  shouldRun : Bool
  restartCount : Nat
  monitorStarted : Bool
  deriving DecidableEq

/-- The restart ceiling, self._max_restarts. -/
def maxRestarts : Nat := 5

/-- The fixed inter-restart delay in seconds, self._restart_delay. -/
def restartDelay : ℚ := 2

/-- Embedding of LibrespotManager.is_running: a handle exists and
poll() reports it still alive. -/
def is_running (s : ManagerState) : Bool :=
  match s.process with
  | none => false
  | some p => p.exitCode.isNone

/-- One polling iteration of _wait_for_api_ready observes the should-run
flag, the process state (no handle, or a handle with its poll() result)
and the outcome of the GET on /status (none models a
RequestException). -/
structure PollObs where
  shouldRun : Bool
  procState : Option (Option Int)
  apiStatus : Option Nat

/-- Embedding of the _wait_for_api_ready loop body: consume fuel
iterations (the readiness timeout expressed as the number of times the
while condition holds); at each iteration return false on a cleared
should-run flag or a dead or absent process, true on HTTP 200, and
otherwise keep polling.  The second component counts the iterations
actually executed, so an early return is visible. -/
def waitReadyAux (obs : Nat → PollObs) : Nat → Nat → Bool × Nat
  | 0, used => (false, used)
  | fuel + 1, used =>
      let o := obs used
      if !o.shouldRun then (false, used + 1)
      else
        match o.procState with
        | none => (false, used + 1)
        | some (some _) => (false, used + 1)
        | some none =>
            if o.apiStatus = some 200 then (true, used + 1)
            else waitReadyAux obs fuel (used + 1)

/-- Embedding of LibrespotManager._wait_for_api_ready. -/
def wait_for_api_ready (obs : Nat → PollObs) (fuel : Nat) : Bool × Nat :=
  waitReadyAux obs fuel 0

/-- Environment met by one start attempt: whether _check_binary passes
(binary present and executable, or made executable), whether
_check_port_available succeeds within its retries, the result of
spawning (none models a Popen failure), and the observations and
iteration budget of the readiness wait. -/
structure StartEnv where
  binaryOk : Bool
  portAvailable : Bool
  spawnResult : Option ProcHandle
  readyObs : Nat → PollObs
  readyFuel : Nat

/-- Embedding of LibrespotManager._start_process: binary check, orphan
cleanup (best effort, no state change), port check, config write, spawn.
On success the handle is stored. -/
def startProcess (s : ManagerState) (env : StartEnv) : ManagerState × Bool :=
  if !env.binaryOk then (s, false)
  else if !env.portAvailable then (s, false)
  else
    match env.spawnResult with
    | none => (s, false)
    | some h => ({ s with process := some h }, true)

/-- Embedding of LibrespotManager._stop_process: signal, wait, kill if
needed, and always clear the handle. -/
def stopProcess (s : ManagerState) : ManagerState :=
  { s with process := none }

/-- Embedding of LibrespotManager.start: no-op success when already
running; otherwise set should-run, reset the restart counter, start the
process, wait for the API; on any failure stop the process, clear
should-run and report false; on success launch the monitor thread. -/
def start (s : ManagerState) (env : StartEnv) : ManagerState × Bool :=
  if s.shouldRun then (s, true)
  else
    let s1 := { s with shouldRun := true, restartCount := 0 }
    match startProcess s1 env with
    | (s2, false) => ({ s2 with shouldRun := false }, false)
    | (s2, true) =>
        if (wait_for_api_ready env.readyObs env.readyFuel).1 then
          ({ s2 with monitorStarted := true }, true)
        else
          ({ stopProcess s2 with shouldRun := false }, false)

/-- Observable action of the monitor loop, in program order: sleeping a
number of seconds, attempting a fresh _start_process, running the
post-restart readiness wait, stopping the process. -/
inductive MonAction where
  | sleep (seconds : ℚ)
  | startAttempt
  | readinessWait
  | stopProc
  deriving DecidableEq

/-- Environment met by one monitor iteration: the outcome of the restart
_start_process (none models failure) and of the post-restart readiness
wait. -/
structure MonitorEnv where
  startResult : Option ProcHandle
  apiReady : Bool

/-- Count of restart attempts among the actions of one iteration. -/
def countStartAttempts (acts : List MonAction) : Nat :=
  acts.countP (fun a => a = MonAction.startAttempt)

/-- Embedding of one iteration of LibrespotManager._monitor_loop: when
the loop runs (should-run set) and a handle exists whose poll() reports
an exit code, clear the handle; under the ceiling increment the counter,
sleep the restart delay and attempt one fresh start (stopping again if
the restarted API never becomes ready); at the ceiling give up and clear
the should-run flag.  Every executed iteration ends with sleep(1). -/
def monitorStep (s : ManagerState) (env : MonitorEnv) : ManagerState × List MonAction :=
  if !s.shouldRun then (s, [])
  else
    match s.process with
    | none => (s, [MonAction.sleep 1])
    | some p =>
        match p.exitCode with
        | none => (s, [MonAction.sleep 1])
        | some _ =>
            let s1 := { s with process := none }
            if s1.restartCount < maxRestarts then
              let s2 := { s1 with restartCount := s1.restartCount + 1 }
              match env.startResult with
              | none =>
                  (s2, [MonAction.sleep restartDelay, MonAction.startAttempt,
                        MonAction.sleep 1])
              | some h =>
                  if env.apiReady then
                    ({ s2 with process := some h },
                     [MonAction.sleep restartDelay, MonAction.startAttempt,
                      MonAction.readinessWait, MonAction.sleep 1])
                  else
                    ({ s2 with process := none },
                     [MonAction.sleep restartDelay, MonAction.startAttempt,
                      MonAction.readinessWait, MonAction.stopProc,
                      MonAction.sleep 1])
            else
              ({ s1 with shouldRun := false }, [MonAction.sleep 1])

/-- Run the monitor loop through a sequence of iteration environments. -/
def monitorRun (s : ManagerState) : List MonitorEnv → ManagerState
  | [] => s
  | e :: es => monitorRun (monitorStep s e).1 es

/-! ## Derived color cache (SpotifyService._get_colors_cached) -/

/-- The color cache field: none models the class-level None, some d an
insertion-ordered dict from artwork URL to color list. -/
structure ColorCacheState where
  colorCache : Option (List (String × List String))
  deriving DecidableEq

/-- Membership lookup in the cache dict. -/
def cacheLookup (d : List (String × List String)) (k : String) : Option (List String) :=
  (d.find? (fun p => p.1 == k)).map (fun p => p.2)

/-- Python dict assignment: overwrite in place, or append a new key at
the end of the insertion order. -/
def cacheSet (d : List (String × List String)) (k : String) (v : List String) :
    List (String × List String) :=
  if (d.find? (fun p => p.1 == k)).isSome then
    d.map (fun p => if p.1 == k then (k, v) else p)
  else d ++ [(k, v)]

/-- Embedding of SpotifyService._get_colors_cached: on a hit in a truthy
cache return the stored colors with no state change; otherwise compute
the colors, replace a None cache by the empty dict, clear the whole dict
when it holds more than 100 entries, and store the new entry. -/
def getColorsCached (extractColors : String → List String) (s : ColorCacheState)
    (artworkUrl : String) : ColorCacheState × List String :=
  let hit : Option (List String) :=
    match s.colorCache with
    | none => none
    | some cache => if cache = [] then none else cacheLookup cache artworkUrl
  match hit with
  | some colors => (s, colors)
  | none =>
      let colors := extractColors artworkUrl
      let cache :=
        match s.colorCache with
        | none => []
        | some c => c
      let cache := if cache.length > 100 then [] else cache
      (⟨some (cacheSet cache artworkUrl colors)⟩, colors)

/-- Keys of the cache dict in insertion order. -/
def cacheKeys (s : ColorCacheState) : List String :=
  match s.colorCache with
  | none => []
  | some d => d.map (fun p => p.1)

/-! ## Theorems -/

/-- Helper: a monitor iteration with the should-run flag cleared leaves
the state untouched and performs no action. -/
theorem monitorStep_stopped (s : ManagerState) (e : MonitorEnv)
    (hs : s.shouldRun = false) : monitorStep s e = (s, []) := by
  unfold monitorStep
  simp [hs]

/-- Helper: once the should-run flag is cleared, any sequence of monitor
iterations leaves the state untouched. -/
theorem monitorRun_stopped (s : ManagerState) (hs : s.shouldRun = false) :
    ∀ envs : List MonitorEnv, monitorRun s envs = s := by
  intro envs
  induction envs with
  | nil => rfl
  | cons e es ih =>
      unfold monitorRun
      rw [monitorStep_stopped s e hs]
      exact ih

/-- Claim C4, counterexample to the claim as stated: a 304 response is a
non-2xx HTTP status, yet the request operation returns the parsed body,
not null, because raise_for_status only raises for 4xx/5xx. -/
theorem C4_counterexample :
    requestResult (HttpOutcome.response 304 (RespBody.jsonBody [])) = some [] ∧
    requestResult (HttpOutcome.response 304 (RespBody.jsonBody [])) ≠ none := by
  constructor
  · rfl
  · intro h
    exact Option.noConfusion h

/-- Claim C4 (amended): the request operation returns null exactly on a
connection failure, a timeout, a 4xx or 5xx HTTP status, or a malformed
response body; consequently, when every underlying call fails, every
playback-control operation built on it reports boolean failure rather
than propagating an error. -/
theorem C4_request_failure_handling :
    (∀ outcome, requestResult outcome = none ↔
        (outcome = HttpOutcome.connectionError ∨ outcome = HttpOutcome.timeout ∨
         (∃ s b, outcome = HttpOutcome.response s b ∧ raisesForStatus s = true) ∨
         (∃ s, outcome = HttpOutcome.response s RespBody.malformed))) ∧
    (∀ net : Net, (∀ r, requestResult (net r) = none) →
        (resume net).2 = false ∧ (pause net).2 = false ∧ (play_pause net).2 = false ∧
        (next_track net).2 = false ∧ (previous_track net).2 = false ∧
        (∀ p, (seek net p).2 = false) ∧ (∀ v, (set_volume net v).2 = false) ∧
        (∀ b, (set_shuffle net b).2 = false) ∧ (∀ m, (set_repeat net m).2 = false) ∧
        (∀ u sk, (play_uri net u sk).2 = false) ∧ (∀ u, (add_to_queue net u).2 = false)) := by
  constructor
  · intro outcome
    cases outcome with
    | connectionError => simp [requestResult]
    | timeout => simp [requestResult]
    | response status body =>
        cases hrs : raisesForStatus status with
        | true =>
            simp only [requestResult, hrs, if_true]
            constructor
            · intro _
              exact Or.inr (Or.inr (Or.inl ⟨status, body, rfl, hrs⟩))
            · intro _
              trivial
        | false =>
            cases body with
            | empty => simp [requestResult, hrs]
            | jsonBody d => simp [requestResult, hrs]
            | malformed =>
                simp only [requestResult, hrs, Bool.false_eq_true, if_false]
                constructor
                · intro _
                  exact Or.inr (Or.inr (Or.inr ⟨status, rfl⟩))
                · intro _
                  trivial
  · intro net h
    refine ⟨?_, ?_, ?_, ?_, ?_, ?_, ?_, ?_, ?_, ?_, ?_⟩
    · simp [resume, sendRequest, h]
    · simp [pause, sendRequest, h]
    · simp [play_pause, sendRequest, h]
    · simp [next_track, sendRequest, h]
    · simp [previous_track, sendRequest, h]
    · intro p
      simp [seek, sendRequest, h]
    · intro v
      simp [set_volume, sendRequest, h]
    · intro b
      simp [set_shuffle, sendRequest, h]
    · intro m
      unfold set_repeat
      split
      · simp [sendRequest, h]
      · split
        · simp [sendRequest, h]
        · split
          · simp [sendRequest, h]
          · rfl
    · intro u sk
      simp [play_uri, sendRequest, h]
    · intro u
      simp [add_to_queue, sendRequest, h]

/-- Witness for claim C4: with every call timing out, resume reports
false. -/
theorem C4_witness : (resume (fun _ => HttpOutcome.timeout)).2 = false :=
  (C4_request_failure_handling.2 (fun _ => HttpOutcome.timeout) (fun _ => rfl)).1

/-- Claim C5, counterexample to the claim as stated: the input year:0
carries a year token, so the claim demands the zero-padded 0000-01-01,
but the code treats a zero year as falsy and returns the input
unchanged. -/
theorem C5_counterexample :
    parse_release_date "year:0" = "year:0" ∧
    parse_release_date "year:0" ≠ "0000-01-01" := by
  constructor
  · decide
  · decide

/-- Claim C5 (amended): release-date normalization yields the
zero-padded YYYY-MM-DD string whenever token parsing succeeds with a
nonzero year (month and day defaulting to 1), and returns the input
unchanged when no nonzero year token exists or parsing fails; the four
quoted examples hold as stated. -/
theorem C5_release_date_normalization :
    parse_release_date "year:2010 month:4 day:12" = "2010-04-12" ∧
    parse_release_date "year:2020" = "2020-01-01" ∧
    parse_release_date "" = "" ∧
    parse_release_date "garbage" = "garbage" ∧
    (∀ s parts, s ≠ "" → parseTokens [] (pySplit s) = some parts →
        dictGetInt parts "year" 0 ≠ 0 →
        parse_release_date s =
          pyFormatD 4 (dictGetInt parts "year" 0) ++ "-" ++
          pyFormatD 2 (dictGetInt parts "month" 1) ++ "-" ++
          pyFormatD 2 (dictGetInt parts "day" 1)) ∧
    (∀ s, parseTokens [] (pySplit s) = none → parse_release_date s = s) ∧
    (∀ s parts, parseTokens [] (pySplit s) = some parts →
        dictGetInt parts "year" 0 = 0 → parse_release_date s = s) := by
  refine ⟨by decide, by decide, by decide, by decide, ?_, ?_, ?_⟩
  · intro s parts hs hp hy
    unfold parse_release_date
    simp [hs, hp, hy]
  · intro s hp
    by_cases hs : s = ""
    · subst hs
      rfl
    · unfold parse_release_date
      simp [hs, hp]
  · intro s parts hp hy
    by_cases hs : s = ""
    · subst hs
      rfl
    · unfold parse_release_date
      simp [hs, hp, hy]

/-- Witness for claim C5: the nonzero-year branch applied to the
concrete input year:2020. -/
theorem C5_witness :
    parse_release_date "year:2020" =
      pyFormatD 4 (dictGetInt [("year", 2020)] "year" 0) ++ "-" ++
      pyFormatD 2 (dictGetInt [("year", 2020)] "month" 1) ++ "-" ++
      pyFormatD 2 (dictGetInt [("year", 2020)] "day" 1) :=
  C5_release_date_normalization.2.2.2.2.1 "year:2020" [("year", 2020)]
    (by decide) (by decide) (by decide)

/-- Claim C6: for every mode string outside off, context and track,
set_repeat issues zero underlying requests and returns failure. -/
theorem C6_set_repeat_unknown_mode (net : Net) (mode : String)
    (h1 : mode ≠ "off") (h2 : mode ≠ "context") (h3 : mode ≠ "track") :
    set_repeat net mode = ([], false) := by
  unfold set_repeat
  simp [h1, h2, h3]

/-- Witness for claim C6: the mode invalid issues nothing and fails. -/
theorem C6_witness :
    set_repeat (fun _ => HttpOutcome.timeout) "invalid" = ([], false) :=
  C6_set_repeat_unknown_mode (fun _ => HttpOutcome.timeout) "invalid"
    (by decide) (by decide) (by decide)

/-- Claim C7: set_volume clamps its argument to 0..100 before issuing
its request, so inputs with equal clamped values produce identical
behavior; clamping is idempotent; 150 and 100 both send volume=100, and
-10 and 0 both send volume=0. -/
theorem C7_set_volume_clamped :
    (∀ (net : Net) (v w : Int), pyClamp v = pyClamp w →
        set_volume net v = set_volume net w) ∧
    (∀ v, pyClamp (pyClamp v) = pyClamp v) ∧
    (∀ net : Net, set_volume net 150 = set_volume net 100 ∧
        (set_volume net 150).1 =
          [⟨"POST", "/player/volume", some [("volume", JsonVal.ji 100)]⟩]) ∧
    (∀ net : Net, set_volume net (-10) = set_volume net 0 ∧
        (set_volume net (-10)).1 =
          [⟨"POST", "/player/volume", some [("volume", JsonVal.ji 0)]⟩]) := by
  refine ⟨?_, ?_, ?_, ?_⟩
  · intro net v w h
    unfold set_volume
    rw [h]
  · intro v
    unfold pyClamp
    omega
  · intro net
    exact ⟨rfl, rfl⟩
  · intro net
    exact ⟨rfl, rfl⟩

/-- Witness for claim C7: the clamp-equality branch applied at inputs
150 and 100. -/
theorem C7_witness :
    set_volume (fun _ => HttpOutcome.timeout) 150 =
      set_volume (fun _ => HttpOutcome.timeout) 100 :=
  C7_set_volume_clamped.1 (fun _ => HttpOutcome.timeout) 150 100 (by decide)

/-- Claim C10: for every recognized repeat mode, set_repeat issues
exactly two requests; the first always disables a flag and never enables
one, so both flags are never requested enabled at once; for off the
second also disables; otherwise the second enables the requested flag;
and the result is true iff both requests succeeded. -/
theorem C10_set_repeat_recognized (net : Net) (mode : String)
    (h : mode = "off" ∨ mode = "context" ∨ mode = "track") :
    ∃ r1 r2,
      (set_repeat net mode).1 = [r1, r2] ∧
      disablesRepeatFlag r1 = true ∧
      enablesRepeatFlag r1 = false ∧
      ¬(enablesRepeatFlag r1 = true ∧ enablesRepeatFlag r2 = true) ∧
      (mode = "off" → disablesRepeatFlag r2 = true ∧ enablesRepeatFlag r2 = false) ∧
      (mode ≠ "off" → enablesRepeatFlag r2 = true) ∧
      (set_repeat net mode).2 = ((sendRequest net r1).isSome && (sendRequest net r2).isSome) := by
  rcases h with h | h | h <;> subst h
  · exact ⟨reqRepeatContext false, reqRepeatTrack false, rfl, by decide, by decide,
      by decide, fun _ => ⟨by decide, by decide⟩, fun hc => absurd rfl hc, rfl⟩
  · exact ⟨reqRepeatTrack false, reqRepeatContext true, rfl, by decide, by decide,
      by decide, fun hc => absurd hc (by decide), fun _ => by decide, rfl⟩
  · exact ⟨reqRepeatContext false, reqRepeatTrack true, rfl, by decide, by decide,
      by decide, fun hc => absurd hc (by decide), fun _ => by decide, rfl⟩

/-- Witness for claim C10: the recognized mode context with a network
that always times out. -/
theorem C10_witness :
    ∃ r1 r2,
      (set_repeat (fun _ => HttpOutcome.timeout) "context").1 = [r1, r2] ∧
      disablesRepeatFlag r1 = true ∧
      enablesRepeatFlag r1 = false ∧
      ¬(enablesRepeatFlag r1 = true ∧ enablesRepeatFlag r2 = true) ∧
      ("context" = "off" → disablesRepeatFlag r2 = true ∧ enablesRepeatFlag r2 = false) ∧
      ("context" ≠ "off" → enablesRepeatFlag r2 = true) ∧
      (set_repeat (fun _ => HttpOutcome.timeout) "context").2 =
        ((sendRequest (fun _ => HttpOutcome.timeout) r1).isSome &&
         (sendRequest (fun _ => HttpOutcome.timeout) r2).isSome) :=
  C10_set_repeat_recognized (fun _ => HttpOutcome.timeout) "context" (Or.inr (Or.inl rfl))

/-- Claim C8: in every supervisor state, is_running is true iff a
process handle exists and poll() reports it still alive; it is false
whenever the handle is absent or the process has exited. -/
theorem C8_is_running_iff (s : ManagerState) :
    (is_running s = true ↔ ∃ p, s.process = some p ∧ p.exitCode = none) ∧
    (s.process = none → is_running s = false) ∧
    (∀ p c, s.process = some p → p.exitCode = some c → is_running s = false) := by
  refine ⟨?_, ?_, ?_⟩
  · unfold is_running
    cases hp : s.process with
    | none => simp
    | some p =>
        simp only [Option.isNone_iff_eq_none]
        constructor
        · intro h
          exact ⟨p, rfl, h⟩
        · intro ⟨q, hq, hqc⟩
          cases hq
          exact hqc
  · intro h
    unfold is_running
    rw [h]
  · intro p c hp hc
    unfold is_running
    rw [hp]
    show p.exitCode.isNone = false
    rw [hc]
    rfl

/-- Witness for claim C8: a state with no handle is not running. -/
theorem C8_witness : is_running ⟨none, false, 0, false⟩ = false :=
  (C8_is_running_iff ⟨none, false, 0, false⟩).2.1 rfl

/-- Claim C2: below the ceiling a detected exit increments the counter
by one and performs exactly one start attempt, placed directly after the
fixed two second delay; at the ceiling a detected exit performs no start
attempt, clears the should-run flag, and is_running stays false through
every further monitor iteration. -/
theorem C2_monitor_restart_policy (s : ManagerState) (env : MonitorEnv)
    (p : ProcHandle) (c : Int)
    (hrun : s.shouldRun = true) (hp : s.process = some p) (hc : p.exitCode = some c) :
    (s.restartCount < maxRestarts →
        (monitorStep s env).1.restartCount = s.restartCount + 1 ∧
        countStartAttempts (monitorStep s env).2 = 1 ∧
        (∃ rest, (monitorStep s env).2 =
            MonAction.sleep restartDelay :: MonAction.startAttempt :: rest) ∧
        restartDelay = 2) ∧
    (maxRestarts ≤ s.restartCount →
        countStartAttempts (monitorStep s env).2 = 0 ∧
        (monitorStep s env).1.shouldRun = false ∧
        (monitorStep s env).1.process = none ∧
        ∀ envs, is_running (monitorRun (monitorStep s env).1 envs) = false) := by
  constructor
  · intro hlt
    rcases hsr : env.startResult with _ | h
    · have hstep : monitorStep s env =
          ({ s with process := none, restartCount := s.restartCount + 1 },
           [MonAction.sleep restartDelay, MonAction.startAttempt, MonAction.sleep 1]) := by
        unfold monitorStep
        simp [hrun, hp, hc, hlt, hsr]
      rw [hstep]
      exact ⟨rfl, rfl, ⟨[MonAction.sleep 1], rfl⟩, rfl⟩
    · cases hapi : env.apiReady
      · have hstep : monitorStep s env =
            ({ s with process := none, restartCount := s.restartCount + 1 },
             [MonAction.sleep restartDelay, MonAction.startAttempt,
              MonAction.readinessWait, MonAction.stopProc, MonAction.sleep 1]) := by
          unfold monitorStep
          simp [hrun, hp, hc, hlt, hsr, hapi]
        rw [hstep]
        exact ⟨rfl, rfl,
          ⟨[MonAction.readinessWait, MonAction.stopProc, MonAction.sleep 1], rfl⟩, rfl⟩
      · have hstep : monitorStep s env =
            ({ s with process := some h, restartCount := s.restartCount + 1 },
             [MonAction.sleep restartDelay, MonAction.startAttempt,
              MonAction.readinessWait, MonAction.sleep 1]) := by
          unfold monitorStep
          simp [hrun, hp, hc, hlt, hsr, hapi]
        rw [hstep]
        exact ⟨rfl, rfl,
          ⟨[MonAction.readinessWait, MonAction.sleep 1], rfl⟩, rfl⟩
  · intro hge
    have hnlt : ¬ s.restartCount < maxRestarts := by omega
    have hstep : monitorStep s env =
        ({ s with process := none, shouldRun := false }, [MonAction.sleep 1]) := by
      unfold monitorStep
      simp [hrun, hp, hc, hnlt]
    rw [hstep]
    refine ⟨rfl, rfl, rfl, ?_⟩
    intro envs
    rw [monitorRun_stopped _ rfl envs]
    rfl

/-- Witness for claim C2: a detected exit at restart count zero with a
failing restart environment increments the counter to one. -/
theorem C2_witness :
    (monitorStep ⟨some ⟨1, some 0⟩, true, 0, true⟩ ⟨none, false⟩).1.restartCount = 1 :=
  ((C2_monitor_restart_policy ⟨some ⟨1, some 0⟩, true, 0, true⟩ ⟨none, false⟩
      ⟨1, some 0⟩ 0 rfl rfl rfl).1 (by decide)).1

/-- Claim C3: whenever start() returns false from an inert state, the
resulting state is fully inert again: no process handle, should-run flag
clear, no monitor thread launched, and is_running false. -/
theorem C3_start_failure_inert (s : ManagerState) (env : StartEnv)
    (hrun : s.shouldRun = false) (hproc : s.process = none)
    (hmon : s.monitorStarted = false) (hfail : (start s env).2 = false) :
    (start s env).1.process = none ∧
    (start s env).1.shouldRun = false ∧
    (start s env).1.monitorStarted = false ∧
    is_running (start s env).1 = false := by
  cases hb : env.binaryOk with
  | false =>
      refine ⟨?_, ?_, ?_, ?_⟩ <;>
        simp [start, startProcess, is_running, hrun, hb, hproc, hmon]
  | true =>
      cases hpt : env.portAvailable with
      | false =>
          refine ⟨?_, ?_, ?_, ?_⟩ <;>
            simp [start, startProcess, is_running, hrun, hb, hpt, hproc, hmon]
      | true =>
          rcases hs : env.spawnResult with _ | h
          · refine ⟨?_, ?_, ?_, ?_⟩ <;>
              simp [start, startProcess, is_running, hrun, hb, hpt, hs, hproc, hmon]
          · cases hr : (wait_for_api_ready env.readyObs env.readyFuel).1 with
            | true =>
                exfalso
                simp [start, startProcess, hrun, hb, hpt, hs, hr] at hfail
            | false =>
                refine ⟨?_, ?_, ?_, ?_⟩ <;>
                  simp [start, startProcess, stopProcess, is_running,
                        hrun, hb, hpt, hs, hr, hmon]

/-- Witness for claim C3: a missing binary fails start() and leaves the
supervisor inert. -/
theorem C3_witness :
    (start ⟨none, false, 0, false⟩
        ⟨false, true, none, fun _ => ⟨true, none, none⟩, 0⟩).1.process = none ∧
    (start ⟨none, false, 0, false⟩
        ⟨false, true, none, fun _ => ⟨true, none, none⟩, 0⟩).1.shouldRun = false ∧
    (start ⟨none, false, 0, false⟩
        ⟨false, true, none, fun _ => ⟨true, none, none⟩, 0⟩).1.monitorStarted = false ∧
    is_running (start ⟨none, false, 0, false⟩
        ⟨false, true, none, fun _ => ⟨true, none, none⟩, 0⟩).1 = false :=
  C3_start_failure_inert ⟨none, false, 0, false⟩
    ⟨false, true, none, fun _ => ⟨true, none, none⟩, 0⟩ rfl rfl rfl rfl

/-- Helper: if every iteration before index i keeps the readiness loop
polling and the process is dead (no handle, or poll() reporting an exit
code) at iteration i, the loop returns false after exactly i+1
iterations. -/
theorem waitReadyAux_dead (obs : Nat → PollObs) :
    ∀ (i fuel used : Nat), i < fuel →
      (∀ j, j < i → (obs (used + j)).shouldRun = true ∧
          (obs (used + j)).procState = some none ∧
          (obs (used + j)).apiStatus ≠ some 200) →
      ((obs (used + i)).procState = none ∨
        ∃ c, (obs (used + i)).procState = some (some c)) →
      waitReadyAux obs fuel used = (false, used + i + 1) := by
  intro i
  induction i with
  | zero =>
      intro fuel used hfu hcont hdead
      match fuel, hfu with
      | fuel + 1, _ =>
        rw [Nat.add_zero] at hdead
        unfold waitReadyAux
        cases hsr : (obs used).shouldRun with
        | false => simp [hsr]
        | true =>
            rcases hdead with hd | ⟨c, hd⟩
            · simp [hsr, hd]
            · simp [hsr, hd]
  | succ n ih =>
      intro fuel used hfu hcont hdead
      match fuel, hfu with
      | fuel + 1, _ =>
        have h0 := hcont 0 (Nat.succ_pos n)
        rw [Nat.add_zero] at h0
        unfold waitReadyAux
        simp only [h0.1, Bool.not_true, Bool.false_eq_true, if_false, h0.2.1]
        rw [if_neg h0.2.2]
        have hcont1 : ∀ j, j < n → (obs (used + 1 + j)).shouldRun = true ∧
            (obs (used + 1 + j)).procState = some none ∧
            (obs (used + 1 + j)).apiStatus ≠ some 200 := by
          intro j hj
          have e : used + 1 + j = used + (j + 1) := by omega
          rw [e]
          exact hcont (j + 1) (by omega)
        have hdead1 : (obs (used + 1 + n)).procState = none ∨
            ∃ c, (obs (used + 1 + n)).procState = some (some c) := by
          have e : used + 1 + n = used + (n + 1) := by omega
          rw [e]
          exact hdead
        have hres := ih fuel (used + 1) (by omega) hcont1 hdead1
        rw [hres]
        congr 1
        omega

/-- Claim C9: when the subprocess is observed dead (handle absent or
poll() reporting an exit) at some polling iteration before the timeout,
the readiness wait returns false after exactly that iteration, without
waiting out the full iteration budget. -/
theorem C9_ready_wait_aborts (obs : Nat → PollObs) (fuel i : Nat)
    (hi : i < fuel)
    (hcont : ∀ j, j < i → (obs j).shouldRun = true ∧
        (obs j).procState = some none ∧ (obs j).apiStatus ≠ some 200)
    (hdead : (obs i).procState = none ∨ ∃ c, (obs i).procState = some (some c)) :
    wait_for_api_ready obs fuel = (false, i + 1) ∧ i + 1 ≤ fuel := by
  constructor
  · have h := waitReadyAux_dead obs i fuel 0 hi
      (fun j hj => by simpa using hcont j hj) (by simpa using hdead)
    simpa [wait_for_api_ready] using h
  · omega

/-- Witness for claim C9: a process dead at the very first poll makes
the wait return false after one of three allowed iterations. -/
theorem C9_witness :
    wait_for_api_ready (fun _ => ⟨true, none, none⟩) 3 = (false, 0 + 1) ∧ 0 + 1 ≤ 3 :=
  C9_ready_wait_aborts (fun _ => ⟨true, none, none⟩) 3 0 (by omega)
    (fun j hj => absurd hj (by omega)) (Or.inl rfl)

/-- Claim C1, evaluated at the failing input of the test suite: with the
cache holding url1, url2, url3, accessing url1 and then inserting url4
keeps every key (no promotion, no eviction), contradicting the claimed
LRU eviction of url2; the only eviction the code performs is a full
clear once more than 100 entries accumulate. -/
theorem C1_cache_not_lru :
    (let s0 : ColorCacheState :=
        ⟨some [("url1", ["#111111"]), ("url2", ["#222222"]), ("url3", ["#333333"])]⟩
     let ext : String → List String := fun _ => ["#444444"]
     let s1 := (getColorsCached ext s0 "url1").1
     let s2 := (getColorsCached ext s1 "url4").1
     (getColorsCached ext s0 "url1").2 = ["#111111"] ∧
     s1 = s0 ∧
     cacheKeys s2 = ["url1", "url2", "url3", "url4"] ∧
     (cacheLookup (s2.colorCache.getD []) "url2").isSome = true) ∧
    (let big : List (String × List String) :=
        (List.range 101).map (fun i => (natDecimalString i, []))
     let s3 := (getColorsCached (fun _ => []) ⟨some big⟩ "newUrl").1
     s3.colorCache = some [("newUrl", [])]) := by
  constructor
  · refine ⟨?_, ?_, ?_, ?_⟩ <;> decide
  · decide

end ViamSpotify
